import Mathlib

/-
Formal model of `bluesky/callbacks/tiled_writer.py`.

The file shallowly embeds the `_RunWriter` document router: each Python
handler (`start`, `stop`, `descriptor`, `event`, `stream_resource`,
`stream_datum`) becomes a Lean function on an explicit writer state that
also models the backend (Tiled) node tree the handlers mutate.  Python
dictionaries become insertion-ordered association lists, pandas data
frames become lists of rows, and fallible handlers return `Except`:
an uncaught Python exception (`KeyError`, `AttributeError`, `NameError`)
is modelled as an `Err` value.  A raised error abandons the handler's
local mutations; none of the properties proved below observe the state
after a failed handler, so this fail-stop simplification is harmless.
-/

namespace TiledWriter

/-! ### List helpers

`nth` and `listModify` are the positional access and update used to model
backend node references (a node handle is the index of the node in its
parent's child list). -/

def nth {α : Type} : List α → Nat → Option α
  | [], _ => none
  | x :: _, 0 => some x
  | _ :: t, n + 1 => nth t n

def listModify {α : Type} : List α → Nat → (α → α) → List α
  | [], _, _ => []
  | x :: t, 0, f => f x :: t
  | x :: t, n + 1, f => x :: listModify t n f

def listSet {α : Type} (l : List α) (i : Nat) (x : α) : List α :=
  listModify l i (fun _ => x)

/-! ### Python-dict helpers

Insertion-ordered association lists with the operations the Python code
uses: lookup (`d[k]`), assignment (`d[k] = v`), `pop`, and merge (`d | e`). -/

def alookup {α : Type} : List (String × α) → String → Option α
  | [], _ => none
  | (k', v) :: t, k => if k' = k then some v else alookup t k

def dictInsert {α : Type} : List (String × α) → String → α → List (String × α)
  | [], k, v => [(k, v)]
  | (k', v') :: t, k, v => if k' = k then (k, v) :: t else (k', v') :: dictInsert t k v

def dictRemove {α : Type} : List (String × α) → String → List (String × α)
  | [], _ => []
  | (k', v') :: t, k => if k' = k then t else (k', v') :: dictRemove t k

def dictUnion {α : Type} (m1 m2 : List (String × α)) : List (String × α) :=
  m2.foldl (fun acc kv => dictInsert acc kv.1 kv.2) m1

/-! ### Strings

`stripSlashes` models Python's `s.strip("/")` (drop leading and trailing
`'/'` characters); `splitSlashes` models `s.split("/")` (so
`splitSlashes "" = [""]` and `splitSlashes "a//b" = ["a", "", "b"]`, as
in Python); `joinSlash` is its inverse, `"/".join(...)`. -/

def stripSlashes (s : String) : String :=
  String.mk (((s.data.dropWhile (fun c => c = '/')).reverse.dropWhile (fun c => c = '/')).reverse)

def splitSlashesAux : List Char → List Char → List String
  | [], acc => [String.mk acc.reverse]
  | c :: rest, acc =>
    if c = '/' then String.mk acc.reverse :: splitSlashesAux rest []
    else splitSlashesAux rest (c :: acc)

def splitSlashes (s : String) : List String :=
  splitSlashesAux s.data []

def joinSlash : List String → String
  | [] => ""
  | [x] => x
  | x :: rest => x ++ "/" ++ joinSlash rest

/-! ### Documents

One structure per Bluesky document kind, with exactly the fields
`tiled_writer.py` reads.  `PyVal` stands for the opaque scalar/array
values carried in event rows. -/

inductive PyVal where
  | str (s : String)
  | int (n : Int)
  | arr (xs : List Int)
deriving DecidableEq

structure StartDoc where
  uid : String
deriving DecidableEq

structure StopDoc where
  uid : String
deriving DecidableEq

/-- Entry of a descriptor's `data_keys` map: `dtype` is the logical element
type ("array", "number", ...), `shape` the declared per-element shape, and
`dtype_str` the optional machine dtype (`data_desc.get("dtype_str", "<f8")`). -/
structure DataKeyDesc where
  dtype : String
  shape : List Int
  dtype_str : Option String
deriving DecidableEq

structure DescriptorDoc where
  uid : String
  name : String
  data_keys : List (String × DataKeyDesc)
deriving DecidableEq

structure EventDoc where
  descriptor : String
  data : List (String × PyVal)
  timestamps : List (String × PyVal)
deriving DecidableEq

/-- `resource_kwargs_path` models `SR_doc["resource_kwargs"]["path"]`, the
only resource kwarg the code reads. -/
structure StreamResourceDoc where
  uid : String
  spec : String
  root : String
  resource_path : String
  resource_kwargs_path : String
  data_key : String
deriving DecidableEq

structure StreamDatumDoc where
  descriptor : String
  stream_resource : String
  indices_start : Int
  indices_stop : Int
deriving DecidableEq

inductive Document where
  | start (d : StartDoc)
  | stop (d : StopDoc)
  | descriptor (d : DescriptorDoc)
  | event (d : EventDoc)
  | streamResource (d : StreamResourceDoc)
  | streamDatum (d : StreamDatumDoc)
deriving DecidableEq

/-! ### Backend (Tiled) node model -/

/-- `Spec("BlueskyRun", version="1.0")`. -/
structure Spec where
  name : String
  version : String
deriving DecidableEq

/-- Table structure as inferred by `TableStructure.from_pandas` (one
partition; we record the column names). -/
structure TableStructure where
  columns : List String
deriving DecidableEq

/-- One row of a single-row pandas data frame built by the event handler:
the `column -> value` map of `doc["data"]` / `doc["timestamps"]`. -/
abbrev Row := List (String × PyVal)

/-- A pandas data frame, reduced to its list of rows. -/
structure DataFrame where
  rows : List Row
deriving DecidableEq

/-- `pd.DataFrame({column: [value] for column, value in m.items()})`. -/
def DataFrame.ofDoc (m : Row) : DataFrame := ⟨[m]⟩

def TableStructure.from_pandas (df : DataFrame) : TableStructure :=
  ⟨(df.rows.headD []).map Prod.fst⟩

/-- A Tiled table node: its structure and its partitions (each a list of
rows).  A node fresh from `parent_node.new` with a `from_pandas` structure
has one, still empty, partition. -/
structure TableNode where
  table_structure : TableStructure
  partitions : List (List Row)
deriving DecidableEq

def TableNode.write_partition (t : TableNode) (df : DataFrame) (i : Nat) : TableNode :=
  { t with partitions := listSet t.partitions i df.rows }

def TableNode.append_partition (t : TableNode) (df : DataFrame) (i : Nat) : TableNode :=
  { t with partitions := listModify t.partitions i (fun rs => rs ++ df.rows) }

structure Asset where
  data_uri : String
  is_directory : Bool
  parameter : String
deriving DecidableEq

/-- `ArrayStructure(data_type=..., shape=..., chunks=...)`; `data_type`
is kept as the numpy dtype string. -/
structure ArrayStructure where
  data_type : String
  shape : List Int
  chunks : List (List Int)
deriving DecidableEq

/-- An array node registered for a stream resource: its single external
data source, flattened (assets, mimetype, structure, and the
`parameters={"path": ...}` entry). -/
structure ArrayNode where
  assets : List Asset
  mimetype : String
  array_structure : ArrayStructure
  parameters_path : List String
deriving DecidableEq

/-- A descriptor container together with its two sub-containers:
`internal` holds table nodes by key, `external` holds array nodes in
creation order (Tiled assigns their keys, so a node handle is a position). -/
structure DescContainer where
  key : String
  metadata : DescriptorDoc
  internal : List (String × TableNode)
  external : List ArrayNode
deriving DecidableEq

/-- A root container made by `client.create_container`; `metadata` holds
whole documents under `"start"` / `"stop"`; `childDescs` are indices into
the flat arena of descriptor containers. -/
structure RootContainer where
  key : String
  metadata : List (String × Document)
  specs : List Spec
  childDescs : List Nat
deriving DecidableEq

/-- The `_RunWriter` state plus the backend tree it mutates:
`roots`/`descs` are the containers created so far (descriptor containers
in a flat arena), `nodeIdx` is `self.node`, and the three maps are
`self._descriptor_nodes` (uid to descriptor-container index),
`self._SR_nodes` (uid to (descriptor index, array-node index)), and
`self._SR_cache`. -/
structure WState where
  roots : List RootContainer
  nodeIdx : Option Nat
  descriptor_nodes : List (String × Nat)
  sr_nodes : List (String × (Nat × Nat))
  sr_cache : List (String × StreamResourceDoc)
  descs : List DescContainer
deriving DecidableEq

def WState.init : WState :=
  { roots := [], nodeIdx := none, descriptor_nodes := [], sr_nodes := [],
    sr_cache := [], descs := [] }

/-- Uncaught Python exceptions of the handlers, named after the spec's
error taxonomy where a code counterpart exists:
`NoneTypeError` is the `AttributeError` from using `self.node = None`;
`UnknownDescriptor` the `KeyError` from `self._descriptor_nodes[...]`;
`UnknownStreamResource` the `KeyError` from `self._SR_cache.pop(...)`;
`UnknownDataKey` the `KeyError` from `["data_keys"][data_key]`;
`UnsupportedSpec` the `KeyError` from `MIMETYPE_LOOKUP[...]`;
`UnboundDataShape` the `NameError` from reading the never-assigned
`data_shape`; `InternalError` flags a dangling node reference, which no
reachable state produces. -/
inductive Err where
  | NoneTypeError
  | UnknownDescriptor
  | UnknownStreamResource
  | UnknownDataKey
  | UnsupportedSpec
  | UnboundDataShape
  | InternalError
deriving DecidableEq

def MIMETYPE_LOOKUP : List (String × String) :=
  [("hdf5", "application/x-hdf5"),
   ("ADHDF5_SWMR_STREAM", "application/x-hdf5"),
   ("AD_HDF5_SWMR_SLICE", "application/x-hdf5")]

/-! ### The `_RunWriter` handlers -/

/-- `_RunWriter.start` (tiled_writer.py lines 51-56): unconditionally
creates a root container keyed by the document uid, with
`metadata={"start": doc}` and the fixed `BlueskyRun` spec, and rebinds
`self.node` to it.  There is no state check, so it never fails. -/
def start (s : WState) (doc : StartDoc) : WState :=
  { s with
    roots := s.roots ++
      [{ key := doc.uid,
         metadata := [("start", Document.start doc)],
         specs := [⟨"BlueskyRun", "1.0"⟩],
         childDescs := [] }],
    nodeIdx := some s.roots.length }

/-- `_RunWriter.stop` (lines 58-60): reads `self.node.metadata`, merges
`{"stop": doc}` into it with Python's `dict | dict`, and writes it back
with `update_metadata`. -/
def stop (s : WState) (doc : StopDoc) : Except Err WState :=
  match s.nodeIdx with
  | none => Except.error Err.NoneTypeError
  | some i =>
    match nth s.roots i with
    | none => Except.error Err.InternalError
    | some r =>
      Except.ok { s with
        roots := listSet s.roots i
          { r with metadata := dictUnion r.metadata [("stop", Document.stop doc)] } }

/-- `_RunWriter.descriptor` (lines 62-66): creates a child container of
the root keyed by the stream name with the full document as metadata,
registers it in `self._descriptor_nodes` under the document uid, and
creates its `external` and `internal` sub-containers (the two fields of
`DescContainer`, initially empty). -/
def descriptor (s : WState) (doc : DescriptorDoc) : Except Err WState :=
  match s.nodeIdx with
  | none => Except.error Err.NoneTypeError
  | some i =>
    Except.ok { s with
      roots := listModify s.roots i (fun r => { r with childDescs := r.childDescs ++ [s.descs.length] }),
      descs := s.descs ++ [{ key := doc.name, metadata := doc, internal := [], external := [] }],
      descriptor_nodes := dictInsert s.descriptor_nodes doc.uid s.descs.length }

/-- One iteration of the `for table_key in ["data", "timestamps"]` loop of
`_RunWriter.event` (lines 71-89): build a single-row data frame from the
document's map; if the table exists under `internal`, `append_partition(df, 0)`,
otherwise create it with the structure inferred from this data frame and
`write_partition(df, 0)`. -/
def eventTable (d : DescContainer) (key : String) (row : Row) : DescContainer :=
  let df := DataFrame.ofDoc row
  match alookup d.internal key with
  | some t =>
    { d with internal := dictInsert d.internal key (t.append_partition df 0) }
  | none =>
    let t : TableNode :=
      { table_structure := TableStructure.from_pandas df, partitions := [[]] }
    { d with internal := dictInsert d.internal key (t.write_partition df 0) }

/-- `_RunWriter.event` (lines 68-89): resolve the descriptor node (a
`KeyError` if unknown), then run the table update for `"data"` and
`"timestamps"` in that order. -/
def event (s : WState) (doc : EventDoc) : Except Err WState :=
  match alookup s.descriptor_nodes doc.descriptor with
  | none => Except.error Err.UnknownDescriptor
  | some dIdx =>
    match nth s.descs dIdx with
    | none => Except.error Err.InternalError
    | some d =>
      Except.ok { s with
        descs := listSet s.descs dIdx
          (eventTable (eventTable d "data" doc.data) "timestamps" doc.timestamps) }

/-- `_RunWriter.stream_resource` (lines 91-93): only cache the document
by its uid; no storage node is touched. -/
def stream_resource (s : WState) (doc : StreamResourceDoc) : WState :=
  { s with sr_cache := dictInsert s.sr_cache doc.uid doc }

/-- The read-modify-write of lines 157-165 applied to one array
structure: `shape[0] += num_rows`, then `chunks[0] = [1] * shape[0]`
(Python list repetition by a negative count yields `[]`, hence `toNat`). -/
def growStructure (st : ArrayStructure) (num_rows : Int) : ArrayStructure :=
  let newLead := st.shape.headD 0 + num_rows
  { st with
    shape := listSet st.shape 0 newLead,
    chunks := listSet st.chunks 0 (List.replicate newLead.toNat 1) }

def growNode (node : ArrayNode) (num_rows : Int) : ArrayNode :=
  { node with array_structure := growStructure node.array_structure num_rows }

/-- Lines 157-165 of `_RunWriter.stream_datum`: refresh the stream
resource node, grow its first data source's structure by `num_rows`, and
put it back (`PUT` on the data_source endpoint). -/
def updateSR (s : WState) (ref : Nat × Nat) (num_rows : Int) : Except Err WState :=
  match nth s.descs ref.1 with
  | none => Except.error Err.InternalError
  | some d =>
    match nth d.external ref.2 with
    | none => Except.error Err.InternalError
    | some node =>
      Except.ok { s with
        descs := listSet s.descs ref.1
          { d with external := listSet d.external ref.2 (growNode node num_rows) } }

/-- Structure of lines 142-146: leading dimension 0, one chunk per
trailing dimension, initial leading chunk list `[0]`; `data_type` is
`np.dtype(data_desc.get("dtype_str", "<f8"))`, kept as the dtype string. -/
def initialArrayStructure (data_desc : DataKeyDesc) (data_shape : List Int) : ArrayStructure :=
  { data_type := data_desc.dtype_str.getD "<f8",
    shape := 0 :: data_shape,
    chunks := [0] :: data_shape.map (fun d => [d]) }

/-- The array node registered by `parent_node.new` in lines 135-153, for
a cached stream resource document: single non-directory asset whose URI
is `"file://localhost" + "/" + root.strip("/") + "/" + resource_path.strip("/")`,
the spec's mimetype, the initial array structure, and the
`parameters={"path": data_path.split("/")}` entry. -/
def mkSRNode (SR_doc : StreamResourceDoc) (data_desc : DataKeyDesc) (mimetype : String)
    (data_shape : List Int) : ArrayNode :=
  let file_path := "/" ++ stripSlashes SR_doc.root ++ "/" ++ stripSlashes SR_doc.resource_path
  let data_path := stripSlashes SR_doc.resource_kwargs_path
  { assets := [{ data_uri := "file://localhost" ++ file_path,
                 is_directory := false,
                 parameter := "data_uri" }],
    mimetype := mimetype,
    array_structure := initialArrayStructure data_desc data_shape,
    parameters_path := splitSlashes data_path }

/-- `_RunWriter.stream_datum` (lines 95-165): resolve the descriptor
node (`KeyError` if unknown); compute `num_rows = stop - start` with no
range check; reuse the registered array node if present, otherwise pop
the cached stream resource document (`KeyError` if it was never
announced), create the array node under `external` and register it under
the resource document's uid; finally grow the node by `num_rows`.

The `data_shape` local is assigned only when the data key's `dtype` is
`"array"` or `"number"`; on any other value its later use raises a
`NameError`.  Failure points are ordered as they raise at run time: the
`MIMETYPE_LOOKUP[...]` lookup is evaluated (inside the `parent_node.new`
argument list) before `data_shape` is first read. -/
def stream_datum (s : WState) (doc : StreamDatumDoc) : Except Err WState :=
  match alookup s.descriptor_nodes doc.descriptor with
  | none => Except.error Err.UnknownDescriptor
  | some dIdx =>
    match nth s.descs dIdx with
    | none => Except.error Err.InternalError
    | some descriptor_node =>
      let num_rows : Int := doc.indices_stop - doc.indices_start
      match alookup s.sr_nodes doc.stream_resource with
      | some ref => updateSR s ref num_rows
      | none =>
        match alookup s.sr_cache doc.stream_resource with
        | none => Except.error Err.UnknownStreamResource
        | some SR_doc =>
          let s1 := { s with sr_cache := dictRemove s.sr_cache doc.stream_resource }
          match alookup descriptor_node.metadata.data_keys SR_doc.data_key with
          | none => Except.error Err.UnknownDataKey
          | some data_desc =>
            let dataShapeOpt : Option (List Int) :=
              if data_desc.dtype = "array" then some data_desc.shape
              else if data_desc.dtype = "number" then some []
              else none
            match alookup MIMETYPE_LOOKUP SR_doc.spec with
            | none => Except.error Err.UnsupportedSpec
            | some mimetype =>
              match dataShapeOpt with
              | none => Except.error Err.UnboundDataShape
              | some data_shape =>
                let node := mkSRNode SR_doc data_desc mimetype data_shape
                let aIdx := descriptor_node.external.length
                let s2 := { s1 with
                  descs := listSet s1.descs dIdx
                    { descriptor_node with external := descriptor_node.external ++ [node] },
                  sr_nodes := dictInsert s1.sr_nodes SR_doc.uid (dIdx, aIdx) }
                updateSR s2 (dIdx, aIdx) num_rows

/-- Dispatch on the document kind, as `DocumentRouter` does for one run. -/
def processDoc (s : WState) (d : Document) : Except Err WState :=
  match d with
  | Document.start doc => Except.ok (start s doc)
  | Document.stop doc => stop s doc
  | Document.descriptor doc => descriptor s doc
  | Document.event doc => event s doc
  | Document.streamResource doc => Except.ok (stream_resource s doc)
  | Document.streamDatum doc => stream_datum s doc

/-- Process a list of documents in arrival order, stopping at the first
uncaught error. -/
def processTrace (s : WState) (ds : List Document) : Except Err WState :=
  match ds with
  | [] => Except.ok s
  | d :: t =>
    match processDoc s d with
    | Except.error e => Except.error e
    | Except.ok s' => processTrace s' t

/-- Total number of array nodes in the backend tree. -/
def totalArrayNodes (s : WState) : Nat :=
  (s.descs.map (fun d => d.external.length)).sum

/-- Sum of `indices.stop - indices.start` over a list of stream_datum
documents. -/
def deltaSum (ds : List StreamDatumDoc) : Int :=
  (ds.map (fun x => x.indices_stop - x.indices_start)).sum

/-! ### The spec's derived-asset-URI formula -/

/-- Modelled from the spec: the path normalization in the spec's
derived-asset-URI formula, for which the spec gives only the name
`normalize`; modelled as POSIX-style normalization on absolute paths
(collapse repeated separators, drop a trailing separator). -/
def specNormalize (p : String) : String :=
  "/" ++ joinSlash ((splitSlashes p).filter (fun seg => seg ≠ ""))

/-- Modelled from the spec: the spec's derived asset URI,
`"file://localhost" + normalize("/" + root + "/" + resource_path)`. -/
def specAssetUri (root resource_path : String) : String :=
  "file://localhost" ++ specNormalize ("/" ++ root ++ "/" ++ resource_path)

/-- The asset URI the code actually derives (lines 112-119):
`"file://localhost" + "/" + root.strip("/") + "/" + resource_path.strip("/")`. -/
def codeAssetUri (root resource_path : String) : String :=
  "file://localhost" ++ ("/" ++ stripSlashes root ++ "/" ++ stripSlashes resource_path)

/-- The per-element shape the code selects from the descriptor's field
schema: the declared shape for `dtype = "array"`, the empty shape for
`dtype = "number"` (the only branch producing a shape besides "array"). -/
def shapeFor (dd : DataKeyDesc) : List Int :=
  if dd.dtype = "array" then dd.shape else []

/-! ### Concrete example documents and states -/

def exStart : StartDoc := ⟨"u1"⟩

def exDescArr : DescriptorDoc := ⟨"d1", "primary", [("det", ⟨"array", [2], some "<i4"⟩)]⟩

def exDescNum : DescriptorDoc := ⟨"d1", "primary", [("det", ⟨"number", [], none⟩)]⟩

def exDescStr : DescriptorDoc := ⟨"d1", "primary", [("det", ⟨"string", [], none⟩)]⟩

def exSR : StreamResourceDoc := ⟨"sr1", "hdf5", "/data", "f.h5", "entry/data", "det"⟩

def exDatum (a b : Int) : StreamDatumDoc := ⟨"d1", "sr1", a, b⟩

def exEvent1 : EventDoc := ⟨"d1", [("x", PyVal.int 1)], [("x", PyVal.int 100)]⟩

def exEvent2 : EventDoc := ⟨"d1", [("x", PyVal.int 2)], [("x", PyVal.int 200)]⟩

deriving instance DecidableEq for Except

def okOr (e : Except Err WState) : WState :=
  match e with
  | Except.ok s => s
  | Except.error _ => WState.init

/-- State after `start`. -/
def exState0 : WState := start WState.init exStart

/-- State after `start ; descriptor` (array-typed data key). -/
def exStateDesc : WState :=
  okOr (processTrace WState.init [Document.start exStart, Document.descriptor exDescArr])

/-- State after `start ; descriptor ; stream_resource`. -/
def exStateAnn : WState :=
  okOr (processTrace WState.init
    [Document.start exStart, Document.descriptor exDescArr, Document.streamResource exSR])

/-- State after `start ; descriptor ; stream_resource ; stream_datum [0,5)`:
the array node for `sr1` is materialized with leading extent 5. -/
def exState1 : WState :=
  okOr (processTrace WState.init
    [Document.start exStart, Document.descriptor exDescArr, Document.streamResource exSR,
     Document.streamDatum (exDatum 0 5)])

def dcDefault : DescContainer := ⟨"", ⟨"", "", []⟩, [], []⟩

def anDefault : ArrayNode := ⟨[], "", ⟨"", [], []⟩, []⟩

def rootDefault : RootContainer := ⟨"", [], [], []⟩

def exRoot0 : RootContainer := (nth exState0.roots 0).getD rootDefault

def exDC1 : DescContainer := (nth exState1.descs 0).getD dcDefault

def exAN1 : ArrayNode := (nth exDC1.external 0).getD anDefault

def exDCAnn : DescContainer := (nth exStateAnn.descs 0).getD dcDefault

def exDCDesc : DescContainer := (nth exStateDesc.descs 0).getD dcDefault

def exStop : StopDoc := ⟨"s1"⟩

/-- State after `start ; descriptor ; stream_resource` where the data key
is declared with `dtype = "string"` (neither "array" nor "number"). -/
def exStateAnnStr : WState :=
  okOr (processTrace WState.init
    [Document.start exStart, Document.descriptor exDescStr, Document.streamResource exSR])

/-- State after `start ; descriptor ; stream_resource` where the data key
is declared with `dtype = "number"` and no machine dtype. -/
def exStateAnnNum : WState :=
  okOr (processTrace WState.init
    [Document.start exStart, Document.descriptor exDescNum, Document.streamResource exSR])

def exDCAnnStr : DescContainer := (nth exStateAnnStr.descs 0).getD dcDefault

def exDCAnnNum : DescContainer := (nth exStateAnnNum.descs 0).getD dcDefault

/-! ### Helper lemmas: lists and dicts -/

theorem nth_listModify_self {α : Type} (f : α → α) :
    ∀ (l : List α) (i : Nat), nth (listModify l i f) i = (nth l i).map f := by
  intro l
  induction l with
  | nil => intro i; cases i <;> rfl
  | cons x t ih => intro i; cases i with
    | zero => rfl
    | succ n => exact ih n

theorem nth_listSet_self {α : Type} (l : List α) (i : Nat) (x : α) :
    nth (listSet l i x) i = (nth l i).map (fun _ => x) :=
  nth_listModify_self (fun _ => x) l i

theorem length_listModify {α : Type} (f : α → α) :
    ∀ (l : List α) (i : Nat), (listModify l i f).length = l.length := by
  intro l
  induction l with
  | nil => intro i; rfl
  | cons x t ih => intro i; cases i with
    | zero => rfl
    | succ n => simpa [listModify] using ih n

theorem nth_append_length {α : Type} (l : List α) (x : α) :
    nth (l ++ [x]) l.length = some x := by
  induction l with
  | nil => rfl
  | cons y t ih => simpa [nth] using ih

theorem listModify_append_length {α : Type} (l : List α) (x : α) (f : α → α) :
    listModify (l ++ [x]) l.length f = l ++ [f x] := by
  induction l with
  | nil => rfl
  | cons y t ih => simpa [listModify] using ih

theorem listModify_listModify_self {α : Type} (l : List α) (i : Nat) (f g : α → α) :
    listModify (listModify l i f) i g = listModify l i (fun x => g (f x)) := by
  induction l generalizing i with
  | nil => rfl
  | cons x t ih => cases i with
    | zero => rfl
    | succ n => simpa [listModify] using ih n

theorem listSet_listSet_self {α : Type} (l : List α) (i : Nat) (a b : α) :
    listSet (listSet l i a) i b = listSet l i b := by
  simpa [listSet] using listModify_listModify_self l i (fun _ => a) (fun _ => b)

theorem sum_map_listModify {α : Type} (g : α → Nat) (f : α → α) :
    ∀ (l : List α) (i : Nat) (d : α), nth l i = some d →
      ((listModify l i f).map g).sum + g d = (l.map g).sum + g (f d) := by
  intro l
  induction l with
  | nil => intro i d h; cases i <;> simp [nth] at h
  | cons x t ih =>
    intro i d h
    cases i with
    | zero =>
      simp only [nth] at h
      cases h
      simp [listModify]
      omega
    | succ n =>
      simp only [nth] at h
      have := ih n d h
      simp [listModify]
      omega

theorem alookup_dictInsert_self {α : Type} (m : List (String × α)) (k : String) (v : α) :
    alookup (dictInsert m k v) k = some v := by
  induction m with
  | nil => simp [dictInsert, alookup]
  | cons p t ih =>
    obtain ⟨k', v'⟩ := p
    by_cases h : k' = k
    · simp [dictInsert, alookup, h]
    · simp [dictInsert, alookup, h, ih]

theorem alookup_dictInsert_ne {α : Type} (m : List (String × α)) (k k' : String) (v : α)
    (h : k ≠ k') : alookup (dictInsert m k v) k' = alookup m k' := by
  induction m with
  | nil => simp [dictInsert, alookup, h]
  | cons p t ih =>
    obtain ⟨k0, v0⟩ := p
    by_cases h0 : k0 = k
    · subst h0
      simp [dictInsert, alookup, h]
    · simp [dictInsert, alookup, h0, ih]

theorem isSome_alookup_dictInsert {α : Type} (m : List (String × α)) (k k' : String) (v : α)
    (h : (alookup m k').isSome) : (alookup (dictInsert m k v) k').isSome := by
  by_cases hk : k = k'
  · subst hk
    simp [alookup_dictInsert_self]
  · rwa [alookup_dictInsert_ne m k k' v hk]

/-! ### Helper lemmas: the event handler -/

/-- First event for a table key: the table is created with the schema of
this row, holding one partition that holds the row. -/
theorem eventTable_fresh (d : DescContainer) (key : String) (row : Row)
    (h : alookup d.internal key = none) :
    eventTable d key row =
      { d with internal := dictInsert d.internal key ⟨⟨row.map Prod.fst⟩, [[row]]⟩ } := by
  simp [eventTable, h, DataFrame.ofDoc, TableStructure.from_pandas, TableNode.write_partition,
    listSet, listModify]

/-- Later events for a table key: `append_partition(df, 0)` extends the
single partition by the new row. -/
theorem eventTable_existing (d : DescContainer) (key : String) (row : Row)
    (c : TableStructure) (rs : List Row)
    (h : alookup d.internal key = some ⟨c, [rs]⟩) :
    eventTable d key row =
      { d with internal := dictInsert d.internal key ⟨c, [rs ++ [row]]⟩ } := by
  simp [eventTable, h, DataFrame.ofDoc, TableNode.append_partition, listModify]

/-- Effect of one event's loop body on both tables, when both exist with
one partition each. -/
theorem eventTable_step (d : DescContainer) (rowD rowT : Row) (cD cT : TableStructure)
    (rsD rsT : List Row)
    (hD : alookup d.internal "data" = some ⟨cD, [rsD]⟩)
    (hT : alookup d.internal "timestamps" = some ⟨cT, [rsT]⟩) :
    alookup (eventTable (eventTable d "data" rowD) "timestamps" rowT).internal "data" =
      some ⟨cD, [rsD ++ [rowD]]⟩ ∧
    alookup (eventTable (eventTable d "data" rowD) "timestamps" rowT).internal "timestamps" =
      some ⟨cT, [rsT ++ [rowT]]⟩ := by
  have hT1 : alookup (eventTable d "data" rowD).internal "timestamps" = some ⟨cT, [rsT]⟩ := by
    rw [eventTable_existing d "data" rowD cD rsD hD]
    show alookup (dictInsert d.internal "data" _) "timestamps" = _
    rw [alookup_dictInsert_ne _ "data" "timestamps" _ (by decide)]
    exact hT
  have hD1 : alookup (eventTable d "data" rowD).internal "data" = some ⟨cD, [rsD ++ [rowD]]⟩ := by
    rw [eventTable_existing d "data" rowD cD rsD hD]
    show alookup (dictInsert d.internal "data" _) "data" = _
    rw [alookup_dictInsert_self]
  constructor
  · rw [eventTable_existing _ "timestamps" rowT cT rsT hT1]
    show alookup (dictInsert _ "timestamps" _) "data" = _
    rw [alookup_dictInsert_ne _ "timestamps" "data" _ (by decide)]
    exact hD1
  · rw [eventTable_existing _ "timestamps" rowT cT rsT hT1]
    show alookup (dictInsert _ "timestamps" _) "timestamps" = _
    rw [alookup_dictInsert_self]

/-- Effect of the first event's loop body when neither table exists yet. -/
theorem eventTable_first (d : DescContainer) (rowD rowT : Row)
    (hD : alookup d.internal "data" = none)
    (hT : alookup d.internal "timestamps" = none) :
    alookup (eventTable (eventTable d "data" rowD) "timestamps" rowT).internal "data" =
      some ⟨⟨rowD.map Prod.fst⟩, [[rowD]]⟩ ∧
    alookup (eventTable (eventTable d "data" rowD) "timestamps" rowT).internal "timestamps" =
      some ⟨⟨rowT.map Prod.fst⟩, [[rowT]]⟩ := by
  have hT1 : alookup (eventTable d "data" rowD).internal "timestamps" = none := by
    rw [eventTable_fresh d "data" rowD hD]
    show alookup (dictInsert d.internal "data" _) "timestamps" = _
    rw [alookup_dictInsert_ne _ "data" "timestamps" _ (by decide)]
    exact hT
  have hD1 : alookup (eventTable d "data" rowD).internal "data" =
      some ⟨⟨rowD.map Prod.fst⟩, [[rowD]]⟩ := by
    rw [eventTable_fresh d "data" rowD hD]
    show alookup (dictInsert d.internal "data" _) "data" = _
    rw [alookup_dictInsert_self]
  constructor
  · rw [eventTable_fresh _ "timestamps" rowT hT1]
    show alookup (dictInsert _ "timestamps" _) "data" = _
    rw [alookup_dictInsert_ne _ "timestamps" "data" _ (by decide)]
    exact hD1
  · rw [eventTable_fresh _ "timestamps" rowT hT1]
    show alookup (dictInsert _ "timestamps" _) "timestamps" = _
    rw [alookup_dictInsert_self]

/-- Folding a list of events over a state whose tables both exist with a
single partition each: the partition contents grow by the events' rows,
in arrival order. -/
theorem event_fold (dUid : String) (dIdx : Nat) :
    ∀ (es : List EventDoc) (s : WState) (d : DescContainer) (cD cT : TableStructure)
      (rsD rsT : List Row),
      alookup s.descriptor_nodes dUid = some dIdx →
      nth s.descs dIdx = some d →
      alookup d.internal "data" = some ⟨cD, [rsD]⟩ →
      alookup d.internal "timestamps" = some ⟨cT, [rsT]⟩ →
      (∀ e ∈ es, e.descriptor = dUid) →
      ∃ s' d', processTrace s (es.map Document.event) = Except.ok s' ∧
        s'.descriptor_nodes = s.descriptor_nodes ∧
        nth s'.descs dIdx = some d' ∧
        alookup d'.internal "data" = some ⟨cD, [rsD ++ es.map (fun e => e.data)]⟩ ∧
        alookup d'.internal "timestamps" = some ⟨cT, [rsT ++ es.map (fun e => e.timestamps)]⟩ := by
  intro es
  induction es with
  | nil =>
    intro s d cD cT rsD rsT hd hc hD hT hall
    exact ⟨s, d, rfl, rfl, hc, by simpa using hD, by simpa using hT⟩
  | cons e t ih =>
    intro s d cD cT rsD rsT hd hc hD hT hall
    have hdesc : e.descriptor = dUid := hall e (by simp)
    obtain ⟨h1, h2⟩ := eventTable_step d e.data e.timestamps cD cT rsD rsT hD hT
    have hstep : processDoc s (Document.event e) = Except.ok
        { s with
          descs := listSet s.descs dIdx
            (eventTable (eventTable d "data" e.data) "timestamps" e.timestamps) } := by
      simp [processDoc, event, hdesc, hd, hc]
    have hc1 : nth ({ s with
        descs := listSet s.descs dIdx
          (eventTable (eventTable d "data" e.data) "timestamps" e.timestamps) } : WState).descs dIdx =
        some (eventTable (eventTable d "data" e.data) "timestamps" e.timestamps) := by
      show nth (listSet s.descs dIdx _) dIdx = _
      rw [nth_listSet_self, hc]
      rfl
    obtain ⟨s', d', htrace, hdn, hc', hD', hT'⟩ :=
      ih { s with
           descs := listSet s.descs dIdx
             (eventTable (eventTable d "data" e.data) "timestamps" e.timestamps) }
        (eventTable (eventTable d "data" e.data) "timestamps" e.timestamps)
        cD cT (rsD ++ [e.data]) (rsT ++ [e.timestamps]) hd hc1 h1 h2
        (fun x hx => hall x (by simp [hx]))
    refine ⟨s', d', ?_, hdn, hc', ?_, ?_⟩
    · show processTrace s (Document.event e :: t.map Document.event) = Except.ok s'
      simp only [processTrace, hstep]
      exact htrace
    · simpa [List.append_assoc] using hD'
    · simpa [List.append_assoc] using hT'

/-! ### C1 — table partitions under `internal` -/

/-- C1, counterexample: the claim says N events yield N partitions (one
per event).  On the code, two events on a fresh descriptor yield a
`"data"` table with exactly one partition (`append_partition(df, 0)`
extends partition 0 instead of adding a partition). -/
theorem c1_n_partitions_counterexample :
    (processTrace WState.init
      [Document.start exStart, Document.descriptor exDescArr,
       Document.event exEvent1, Document.event exEvent2]).map
      (fun s => (nth s.descs 0).map (fun d =>
        (alookup d.internal "data").map (fun t => t.partitions.length))) =
      Except.ok (some (some 1)) ∧
    (1 : Nat) ≠ 2 :=
  ⟨by decide, by decide⟩

/-- C1 (amended): for every sequence of N events referencing the same
descriptor, processed in arrival order, each of the two table nodes under
`internal` has exactly ONE partition, holding the N original rows in
arrival order exactly; the first event creates the table (schema inferred
from its row) and writes its row as partition 0, and each subsequent
event appends its row to partition 0. -/
theorem c1_single_partition_rows (s : WState) (dUid : String) (dIdx : Nat)
    (d0 : DescContainer) (e0 : EventDoc) (rest : List EventDoc)
    (hd : alookup s.descriptor_nodes dUid = some dIdx)
    (hc : nth s.descs dIdx = some d0)
    (hD : alookup d0.internal "data" = none)
    (hT : alookup d0.internal "timestamps" = none)
    (hall : ∀ e ∈ (e0 :: rest), e.descriptor = dUid) :
    ∃ s' d', processTrace s ((e0 :: rest).map Document.event) = Except.ok s' ∧
      nth s'.descs dIdx = some d' ∧
      alookup d'.internal "data" =
        some ⟨⟨e0.data.map Prod.fst⟩, [(e0 :: rest).map (fun e => e.data)]⟩ ∧
      alookup d'.internal "timestamps" =
        some ⟨⟨e0.timestamps.map Prod.fst⟩, [(e0 :: rest).map (fun e => e.timestamps)]⟩ := by
  have hdesc : e0.descriptor = dUid := hall e0 (by simp)
  obtain ⟨h1, h2⟩ := eventTable_first d0 e0.data e0.timestamps hD hT
  have hstep : processDoc s (Document.event e0) = Except.ok
      { s with
        descs := listSet s.descs dIdx
          (eventTable (eventTable d0 "data" e0.data) "timestamps" e0.timestamps) } := by
    simp [processDoc, event, hdesc, hd, hc]
  have hc1 : nth ({ s with
      descs := listSet s.descs dIdx
        (eventTable (eventTable d0 "data" e0.data) "timestamps" e0.timestamps) } : WState).descs dIdx =
      some (eventTable (eventTable d0 "data" e0.data) "timestamps" e0.timestamps) := by
    show nth (listSet s.descs dIdx _) dIdx = _
    rw [nth_listSet_self, hc]
    rfl
  obtain ⟨s', d', htrace, hdn, hc', hD', hT'⟩ :=
    event_fold dUid dIdx rest
      { s with
        descs := listSet s.descs dIdx
          (eventTable (eventTable d0 "data" e0.data) "timestamps" e0.timestamps) }
      (eventTable (eventTable d0 "data" e0.data) "timestamps" e0.timestamps)
      ⟨e0.data.map Prod.fst⟩ ⟨e0.timestamps.map Prod.fst⟩ [e0.data] [e0.timestamps]
      hd hc1 h1 h2 (fun x hx => hall x (by simp [hx]))
  refine ⟨s', d', ?_, hc', ?_, ?_⟩
  · show processTrace s (Document.event e0 :: rest.map Document.event) = Except.ok s'
    simp only [processTrace, hstep]
    exact htrace
  · simpa using hD'
  · simpa using hT'

/-- C1, witness: two concrete events on a fresh descriptor produce one
partition holding both rows in order. -/
theorem c1_single_partition_rows_witness :
    alookup exStateDesc.descriptor_nodes "d1" = some 0 ∧
    nth exStateDesc.descs 0 = some exDCDesc ∧
    alookup exDCDesc.internal "data" = none ∧
    alookup exDCDesc.internal "timestamps" = none ∧
    (∃ s' d', processTrace exStateDesc
        ((exEvent1 :: [exEvent2]).map Document.event) = Except.ok s' ∧
      nth s'.descs 0 = some d' ∧
      alookup d'.internal "data" =
        some ⟨⟨exEvent1.data.map Prod.fst⟩, [(exEvent1 :: [exEvent2]).map (fun e => e.data)]⟩ ∧
      alookup d'.internal "timestamps" =
        some ⟨⟨exEvent1.timestamps.map Prod.fst⟩,
          [(exEvent1 :: [exEvent2]).map (fun e => e.timestamps)]⟩) :=
  ⟨by decide, by decide, by decide, by decide,
   c1_single_partition_rows exStateDesc "d1" 0 exDCDesc exEvent1 [exEvent2]
     (by decide) (by decide) (by decide) (by decide) (by decide)⟩

/-! ### C3 — second call to `start` -/

/-- C3, counterexample: the claim says a second `start` fails with
`InvalidSequence` and creates no second root container.  On the code,
`start ; start` succeeds and leaves two root containers. -/
theorem c3_second_start_counterexample :
    (processTrace WState.init
      [Document.start ⟨"u1"⟩, Document.start ⟨"u2"⟩]).map (fun s => s.roots.length) =
      Except.ok 2 := by
  decide

/-- C3 (amended): on a RunWriter already in state Started, a second call
to `start` does not fail: it creates another root container and rebinds
the writer's root node to it. -/
theorem c3_second_start_creates_container (s : WState) (d : StartDoc)
    (h : s.nodeIdx.isSome) :
    processDoc s (Document.start d) = Except.ok (start s d) ∧
    (start s d).roots.length = s.roots.length + 1 ∧
    (start s d).nodeIdx = some s.roots.length := by
  refine ⟨rfl, ?_, rfl⟩
  simp [start]

/-- C3, witness: the amended claim at a concrete started state. -/
theorem c3_second_start_creates_container_witness :
    exState0.nodeIdx.isSome = true ∧
    (processDoc exState0 (Document.start ⟨"u2"⟩) = Except.ok (start exState0 ⟨"u2"⟩) ∧
     (start exState0 ⟨"u2"⟩).roots.length = exState0.roots.length + 1 ∧
     (start exState0 ⟨"u2"⟩).nodeIdx = some exState0.roots.length) :=
  ⟨by decide, c3_second_start_creates_container exState0 ⟨"u2"⟩ (by decide)⟩

/-! ### C4 — `stop` merges metadata -/

/-- C4: after `start doc` followed by `stop doc2`, the root node's
metadata still holds every key it held before (in particular `"start"`
with the start document) plus a `"stop"` key holding the stop document;
the merge discards no key. -/
theorem c4_stop_metadata_merge (s : WState) (d2 : StopDoc) (i : Nat) (r : RootContainer)
    (d1 : StartDoc)
    (hn : s.nodeIdx = some i)
    (hr : nth s.roots i = some r)
    (hstart : alookup r.metadata "start" = some (Document.start d1)) :
    ∃ r', processDoc s (Document.stop d2) =
        Except.ok { s with roots := listSet s.roots i r' } ∧
      nth ({ s with roots := listSet s.roots i r' } : WState).roots i = some r' ∧
      alookup r'.metadata "start" = some (Document.start d1) ∧
      alookup r'.metadata "stop" = some (Document.stop d2) ∧
      (∀ k, (alookup r.metadata k).isSome → (alookup r'.metadata k).isSome) := by
  refine ⟨{ r with metadata := dictUnion r.metadata [("stop", Document.stop d2)] },
    ?_, ?_, ?_, ?_, ?_⟩
  · simp [processDoc, stop, hn, hr]
  · show nth (listSet s.roots i _) i = _
    rw [nth_listSet_self, hr]
    rfl
  · show alookup (dictUnion r.metadata [("stop", Document.stop d2)]) "start" = _
    have hu : dictUnion r.metadata [("stop", Document.stop d2)] =
        dictInsert r.metadata "stop" (Document.stop d2) := rfl
    rw [hu, alookup_dictInsert_ne r.metadata "stop" "start" _ (by decide)]
    exact hstart
  · show alookup (dictUnion r.metadata [("stop", Document.stop d2)]) "stop" = _
    have hu : dictUnion r.metadata [("stop", Document.stop d2)] =
        dictInsert r.metadata "stop" (Document.stop d2) := rfl
    rw [hu, alookup_dictInsert_self]
  · intro k hk
    show (alookup (dictUnion r.metadata [("stop", Document.stop d2)]) k).isSome
    have hu : dictUnion r.metadata [("stop", Document.stop d2)] =
        dictInsert r.metadata "stop" (Document.stop d2) := rfl
    rw [hu]
    exact isSome_alookup_dictInsert r.metadata "stop" k _ hk

/-- C4, witness: `start` then `stop` on the concrete run. -/
theorem c4_stop_metadata_merge_witness :
    exState0.nodeIdx = some 0 ∧
    nth exState0.roots 0 = some exRoot0 ∧
    alookup exRoot0.metadata "start" = some (Document.start exStart) ∧
    (∃ r', processDoc exState0 (Document.stop exStop) =
        Except.ok { exState0 with roots := listSet exState0.roots 0 r' } ∧
      nth ({ exState0 with roots := listSet exState0.roots 0 r' } : WState).roots 0 = some r' ∧
      alookup r'.metadata "start" = some (Document.start exStart) ∧
      alookup r'.metadata "stop" = some (Document.stop exStop) ∧
      (∀ k, (alookup exRoot0.metadata k).isSome → (alookup r'.metadata k).isSome)) :=
  ⟨by decide, by decide, by decide,
   c4_stop_metadata_merge exState0 exStop 0 exRoot0 exStart (by decide) (by decide) (by decide)⟩

/-! ### C7 — unannounced stream resource -/

/-- C7: a stream_datum whose stream resource uid is neither materialized
(`_SR_nodes`) nor announced (`_SR_cache`) fails with
`UnknownStreamResource` (the uncaught `KeyError` of `_SR_cache.pop`); the
handler issues no node creation. -/
theorem c7_unknown_stream_resource (s : WState) (doc : StreamDatumDoc) (j : Nat)
    (dc : DescContainer)
    (hd : alookup s.descriptor_nodes doc.descriptor = some j)
    (hj : nth s.descs j = some dc)
    (hmat : alookup s.sr_nodes doc.stream_resource = none)
    (hann : alookup s.sr_cache doc.stream_resource = none) :
    processDoc s (Document.streamDatum doc) = Except.error Err.UnknownStreamResource := by
  simp [processDoc, stream_datum, hd, hj, hmat, hann]

/-- C7, witness: a datum referencing `"sr1"` before any stream_resource
announcement. -/
theorem c7_unknown_stream_resource_witness :
    alookup exStateDesc.descriptor_nodes "d1" = some 0 ∧
    nth exStateDesc.descs 0 = some exDCDesc ∧
    alookup exStateDesc.sr_nodes "sr1" = none ∧
    alookup exStateDesc.sr_cache "sr1" = none ∧
    processDoc exStateDesc (Document.streamDatum (exDatum 0 5)) =
      Except.error Err.UnknownStreamResource :=
  ⟨by decide, by decide, by decide, by decide,
   c7_unknown_stream_resource exStateDesc (exDatum 0 5) 0 exDCDesc
     (by decide) (by decide) (by decide) (by decide)⟩

/-! ### C10 — dtype neither "array" nor "number" -/

/-- C10: if the descriptor's field schema declares an element type other
than "array" or "number", the first stream_datum referencing the
resource raises the unguarded `NameError` (`data_shape` never assigned)
before the array node is created, so no node comes into being. -/
theorem c10_unbound_data_shape (s : WState) (doc : StreamDatumDoc) (dIdx : Nat)
    (d : DescContainer) (SR_doc : StreamResourceDoc) (dd : DataKeyDesc) (mt : String)
    (hd : alookup s.descriptor_nodes doc.descriptor = some dIdx)
    (hc : nth s.descs dIdx = some d)
    (hmat : alookup s.sr_nodes doc.stream_resource = none)
    (hcache : alookup s.sr_cache doc.stream_resource = some SR_doc)
    (hdk : alookup d.metadata.data_keys SR_doc.data_key = some dd)
    (hmt : alookup MIMETYPE_LOOKUP SR_doc.spec = some mt)
    (h1 : dd.dtype ≠ "array") (h2 : dd.dtype ≠ "number") :
    processDoc s (Document.streamDatum doc) = Except.error Err.UnboundDataShape := by
  simp [processDoc, stream_datum, hd, hc, hmat, hcache, hdk, hmt, h1, h2]

/-- C10, witness: data key declared with `dtype = "string"`. -/
theorem c10_unbound_data_shape_witness :
    alookup exStateAnnStr.descriptor_nodes "d1" = some 0 ∧
    nth exStateAnnStr.descs 0 = some exDCAnnStr ∧
    alookup exStateAnnStr.sr_nodes "sr1" = none ∧
    alookup exStateAnnStr.sr_cache "sr1" = some exSR ∧
    alookup exDCAnnStr.metadata.data_keys "det" =
      some ⟨"string", [], none⟩ ∧
    alookup MIMETYPE_LOOKUP "hdf5" = some "application/x-hdf5" ∧
    processDoc exStateAnnStr (Document.streamDatum (exDatum 0 5)) =
      Except.error Err.UnboundDataShape :=
  ⟨by decide, by decide, by decide, by decide, by decide, by decide,
   c10_unbound_data_shape exStateAnnStr (exDatum 0 5) 0 exDCAnnStr exSR
     ⟨"string", [], none⟩ "application/x-hdf5"
     (by decide) (by decide) (by decide) (by decide) (by decide) (by decide)
     (by decide) (by decide)⟩

/-! ### C2 — negative row range -/

/-- C2, counterexample: the claim says a stream_datum with
`rows_added = stop - start < 0` fails with `InvalidRange` and issues no
structure update.  On the code, `stream_datum(start=5, stop=2)` on a
fresh resource succeeds and pushes a structure whose leading extent is
`-3` (and whose leading chunk list collapsed to `[]`). -/
theorem c2_invalid_range_counterexample :
    (processTrace WState.init
      [Document.start exStart, Document.descriptor exDescArr,
       Document.streamResource exSR, Document.streamDatum (exDatum 5 2)]).map
      (fun s => (nth s.descs 0).map (fun d =>
        (nth d.external 0).map (fun n => n.array_structure))) =
      Except.ok (some (some ⟨"<i4", [-3, 2], [[], [2]]⟩)) := by
  decide

/-- C2 (amended): a stream_datum whose `rows_added = stop - start` is
negative is not rejected; the handler completes and issues the structure
update, adding the negative `rows_added` to the node's leading-dimension
extent (strictly decreasing it). -/
theorem c2_negative_rows_applied (s : WState) (doc : StreamDatumDoc) (j dIdx aIdx : Nat)
    (dc d : DescContainer) (node : ArrayNode) (lead : Int) (stail : List Int)
    (hd : alookup s.descriptor_nodes doc.descriptor = some j)
    (hj : nth s.descs j = some dc)
    (hsr : alookup s.sr_nodes doc.stream_resource = some (dIdx, aIdx))
    (hdi : nth s.descs dIdx = some d)
    (ha : nth d.external aIdx = some node)
    (hshape : node.array_structure.shape = lead :: stail)
    (hneg : doc.indices_stop - doc.indices_start < 0) :
    processDoc s (Document.streamDatum doc) = Except.ok
      { s with
        descs := listSet s.descs dIdx
          { d with
            external := listSet d.external aIdx
              (growNode node (doc.indices_stop - doc.indices_start)) } } ∧
    (growNode node (doc.indices_stop - doc.indices_start)).array_structure.shape.headD 0 <
      node.array_structure.shape.headD 0 := by
  constructor
  · simp [processDoc, stream_datum, hd, hj, hsr, updateSR, hdi, ha]
  · simp [growNode, growStructure, hshape, listSet, listModify]
    omega

/-- C2, witness: on the concrete materialized node (extent 5), the datum
`[5, 2)` succeeds and shrinks the extent. -/
theorem c2_negative_rows_applied_witness :
    alookup exState1.descriptor_nodes "d1" = some 0 ∧
    alookup exState1.sr_nodes "sr1" = some (0, 0) ∧
    nth exState1.descs 0 = some exDC1 ∧
    nth exDC1.external 0 = some exAN1 ∧
    exAN1.array_structure.shape = 5 :: [2] ∧
    (exDatum 5 2).indices_stop - (exDatum 5 2).indices_start < 0 ∧
    (processDoc exState1 (Document.streamDatum (exDatum 5 2)) = Except.ok
      { exState1 with
        descs := listSet exState1.descs 0
          { exDC1 with
            external := listSet exDC1.external 0
              (growNode exAN1 ((exDatum 5 2).indices_stop - (exDatum 5 2).indices_start)) } } ∧
     (growNode exAN1 ((exDatum 5 2).indices_stop - (exDatum 5 2).indices_start)).array_structure.shape.headD 0 <
       exAN1.array_structure.shape.headD 0) :=
  ⟨by decide, by decide, by decide, by decide, by decide, by decide,
   c2_negative_rows_applied exState1 (exDatum 5 2) 0 0 0 exDC1 exDC1 exAN1 5 [2]
     (by decide) (by decide) (by decide) (by decide) (by decide) (by decide) (by decide)⟩

/-! ### Helper lemmas: the stream_datum handler -/

/-- Creation path of `stream_datum`: with the resource announced but not
yet materialized, the handler pops the cached document, creates the array
node at the end of the descriptor's `external` container, registers it
under the resource document's uid, and immediately grows it by this
datum's `num_rows`. -/
theorem stream_datum_create (s : WState) (doc : StreamDatumDoc) (dIdx : Nat)
    (d : DescContainer) (SR_doc : StreamResourceDoc) (dd : DataKeyDesc) (mt : String)
    (dsh : List Int)
    (hd : alookup s.descriptor_nodes doc.descriptor = some dIdx)
    (hc : nth s.descs dIdx = some d)
    (hmat : alookup s.sr_nodes doc.stream_resource = none)
    (hcache : alookup s.sr_cache doc.stream_resource = some SR_doc)
    (hdk : alookup d.metadata.data_keys SR_doc.data_key = some dd)
    (hif : (if dd.dtype = "array" then some dd.shape
            else if dd.dtype = "number" then some ([] : List Int) else none) = some dsh)
    (hmt : alookup MIMETYPE_LOOKUP SR_doc.spec = some mt) :
    processDoc s (Document.streamDatum doc) = Except.ok
      { s with
        sr_cache := dictRemove s.sr_cache doc.stream_resource,
        sr_nodes := dictInsert s.sr_nodes SR_doc.uid (dIdx, d.external.length),
        descs := listSet s.descs dIdx
          { d with
            external := d.external ++
              [growNode (mkSRNode SR_doc dd mt dsh)
                (doc.indices_stop - doc.indices_start)] } } := by
  simp [processDoc, stream_datum, hd, hc, hmat, hcache, hdk, hif, hmt, updateSR,
    nth_listModify_self, nth_append_length, listSet, listModify_append_length,
    listModify_listModify_self]

/-- Shape and chunks of a freshly created array node after the in-handler
growth by `num_rows`. -/
theorem growNode_mkSRNode_structure (SR_doc : StreamResourceDoc) (dd : DataKeyDesc)
    (mt : String) (dsh : List Int) (num_rows : Int) :
    (growNode (mkSRNode SR_doc dd mt dsh) num_rows).array_structure.shape = num_rows :: dsh ∧
    (growNode (mkSRNode SR_doc dd mt dsh) num_rows).array_structure.chunks =
      List.replicate num_rows.toNat 1 :: dsh.map (fun k => [k]) := by
  simp [growNode, growStructure, mkSRNode, initialArrayStructure, listSet, listModify]

/-- Growth path of `stream_datum` iterated over a list of documents, all
referencing an already materialized node whose leading dimension has
extent `lead` with one chunk per row: the extent grows by the sum of the
documents' ranges and the leading chunk list stays one chunk per row. -/
theorem stream_datum_fold (dUid srUid : String) (dIdx aIdx : Nat) :
    ∀ (ds : List StreamDatumDoc) (s : WState) (d : DescContainer) (node : ArrayNode)
      (lead : Int) (stail : List Int) (ctail : List (List Int)),
      alookup s.descriptor_nodes dUid = some dIdx →
      alookup s.sr_nodes srUid = some (dIdx, aIdx) →
      nth s.descs dIdx = some d →
      nth d.external aIdx = some node →
      node.array_structure.shape = lead :: stail →
      node.array_structure.chunks = List.replicate lead.toNat 1 :: ctail →
      0 ≤ lead →
      (∀ x ∈ ds, x.descriptor = dUid ∧ x.stream_resource = srUid ∧
        x.indices_start ≤ x.indices_stop) →
      ∃ s' d' node', processTrace s (ds.map Document.streamDatum) = Except.ok s' ∧
        s'.descriptor_nodes = s.descriptor_nodes ∧
        alookup s'.sr_nodes srUid = some (dIdx, aIdx) ∧
        nth s'.descs dIdx = some d' ∧
        nth d'.external aIdx = some node' ∧
        node'.array_structure.shape = (lead + deltaSum ds) :: stail ∧
        node'.array_structure.chunks = List.replicate (lead + deltaSum ds).toNat 1 :: ctail ∧
        0 ≤ lead + deltaSum ds := by
  intro ds
  induction ds with
  | nil =>
    intro s d node lead stail ctail hd hsr hc ha hshape hchunks hlead hall
    exact ⟨s, d, node, rfl, rfl, hsr, hc, ha, by simpa [deltaSum] using hshape,
      by simpa [deltaSum] using hchunks, by simpa [deltaSum] using hlead⟩
  | cons x t ih =>
    intro s d node lead stail ctail hd hsr hc ha hshape hchunks hlead hall
    obtain ⟨hxd, hxsr, hxr⟩ := hall x (by simp)
    have hdelta : (0 : Int) ≤ x.indices_stop - x.indices_start := by omega
    have hstep : processDoc s (Document.streamDatum x) = Except.ok
        { s with
          descs := listSet s.descs dIdx
            { d with
              external := listSet d.external aIdx
                (growNode node (x.indices_stop - x.indices_start)) } } := by
      simp [processDoc, stream_datum, hxd, hxsr, hd, hsr, hc, updateSR, ha]
    have hc1 : nth (listSet s.descs dIdx
        ({ d with
           external := listSet d.external aIdx
             (growNode node (x.indices_stop - x.indices_start)) } : DescContainer)) dIdx =
        some ({ d with
                external := listSet d.external aIdx
                  (growNode node (x.indices_stop - x.indices_start)) } : DescContainer) := by
      rw [nth_listSet_self, hc]
      rfl
    have ha1 : nth (listSet d.external aIdx
        (growNode node (x.indices_stop - x.indices_start))) aIdx =
        some (growNode node (x.indices_stop - x.indices_start)) := by
      rw [nth_listSet_self, ha]
      rfl
    have hshape1 : (growNode node (x.indices_stop - x.indices_start)).array_structure.shape =
        (lead + (x.indices_stop - x.indices_start)) :: stail := by
      simp [growNode, growStructure, hshape, listSet, listModify]
    have hchunks1 : (growNode node (x.indices_stop - x.indices_start)).array_structure.chunks =
        List.replicate (lead + (x.indices_stop - x.indices_start)).toNat 1 :: ctail := by
      simp [growNode, growStructure, hshape, hchunks, listSet, listModify]
    obtain ⟨s', d', node', htrace, hdn, hsr', hc', ha', hshape', hchunks', hlead'⟩ :=
      ih { s with
           descs := listSet s.descs dIdx
             { d with
               external := listSet d.external aIdx
                 (growNode node (x.indices_stop - x.indices_start)) } }
        { d with
          external := listSet d.external aIdx
            (growNode node (x.indices_stop - x.indices_start)) }
        (growNode node (x.indices_stop - x.indices_start))
        (lead + (x.indices_stop - x.indices_start)) stail ctail
        hd hsr hc1 ha1 hshape1 hchunks1 (by omega)
        (fun y hy => hall y (by simp [hy]))
    refine ⟨s', d', node', ?_, hdn, hsr', hc', ha', ?_, ?_, ?_⟩
    · show processTrace s (Document.streamDatum x :: t.map Document.streamDatum) = Except.ok s'
      simp only [processTrace, hstep]
      exact htrace
    · rw [hshape']
      have : lead + (x.indices_stop - x.indices_start) + deltaSum t = lead + deltaSum (x :: t) := by
        simp [deltaSum]
        omega
      rw [this]
    · rw [hchunks']
      have : lead + (x.indices_stop - x.indices_start) + deltaSum t = lead + deltaSum (x :: t) := by
        simp [deltaSum]
        omega
      rw [this]
    · have : lead + (x.indices_stop - x.indices_start) + deltaSum t = lead + deltaSum (x :: t) := by
        simp [deltaSum]
        omega
      omega

/-! ### C5 — leading extent and chunking -/

/-- C5: for a stream resource announced and then hit by a nonempty
sequence of stream_datum documents with well-formed ranges
(`start ≤ stop`), the array node's leading-dimension extent equals the
sum of `stop - start` over the sequence and its leading-dimension chunk
list is exactly that many chunks of size 1. -/
theorem c5_extent_and_chunks (s : WState) (doc1 : StreamDatumDoc)
    (rest : List StreamDatumDoc) (dIdx : Nat) (d : DescContainer)
    (SR_doc : StreamResourceDoc) (dd : DataKeyDesc) (mt : String) (dsh : List Int)
    (hd : alookup s.descriptor_nodes doc1.descriptor = some dIdx)
    (hc : nth s.descs dIdx = some d)
    (hmat : alookup s.sr_nodes doc1.stream_resource = none)
    (hcache : alookup s.sr_cache doc1.stream_resource = some SR_doc)
    (huid : SR_doc.uid = doc1.stream_resource)
    (hdk : alookup d.metadata.data_keys SR_doc.data_key = some dd)
    (hif : (if dd.dtype = "array" then some dd.shape
            else if dd.dtype = "number" then some ([] : List Int) else none) = some dsh)
    (hmt : alookup MIMETYPE_LOOKUP SR_doc.spec = some mt)
    (hall : ∀ x ∈ (doc1 :: rest), x.descriptor = doc1.descriptor ∧
        x.stream_resource = doc1.stream_resource ∧ x.indices_start ≤ x.indices_stop) :
    ∃ s' d' node', processTrace s ((doc1 :: rest).map Document.streamDatum) = Except.ok s' ∧
      alookup s'.sr_nodes doc1.stream_resource = some (dIdx, d.external.length) ∧
      nth s'.descs dIdx = some d' ∧
      nth d'.external d.external.length = some node' ∧
      node'.array_structure.shape = deltaSum (doc1 :: rest) :: dsh ∧
      node'.array_structure.chunks =
        List.replicate (deltaSum (doc1 :: rest)).toNat 1 :: dsh.map (fun k => [k]) ∧
      ((deltaSum (doc1 :: rest)).toNat : Int) = deltaSum (doc1 :: rest) := by
  have hr1 : doc1.indices_start ≤ doc1.indices_stop := (hall doc1 (by simp)).2.2
  have hδ : (0 : Int) ≤ doc1.indices_stop - doc1.indices_start := by omega
  have hcreate := stream_datum_create s doc1 dIdx d SR_doc dd mt dsh hd hc hmat hcache hdk hif hmt
  obtain ⟨hsh, hch⟩ :=
    growNode_mkSRNode_structure SR_doc dd mt dsh (doc1.indices_stop - doc1.indices_start)
  have hsr1 : alookup (dictInsert s.sr_nodes SR_doc.uid (dIdx, d.external.length))
      doc1.stream_resource = some (dIdx, d.external.length) := by
    rw [← huid]
    exact alookup_dictInsert_self _ _ _
  have hc1 : nth (listSet s.descs dIdx
      ({ d with
         external := d.external ++
           [growNode (mkSRNode SR_doc dd mt dsh)
             (doc1.indices_stop - doc1.indices_start)] } : DescContainer)) dIdx =
      some ({ d with
              external := d.external ++
                [growNode (mkSRNode SR_doc dd mt dsh)
                  (doc1.indices_stop - doc1.indices_start)] } : DescContainer) := by
    rw [nth_listSet_self, hc]
    rfl
  have ha1 : nth (d.external ++
      [growNode (mkSRNode SR_doc dd mt dsh) (doc1.indices_stop - doc1.indices_start)])
      d.external.length =
      some (growNode (mkSRNode SR_doc dd mt dsh) (doc1.indices_stop - doc1.indices_start)) :=
    nth_append_length _ _
  obtain ⟨s', d', node', htrace, hdn, hsr', hc', ha', hshape', hchunks', hlead'⟩ :=
    stream_datum_fold doc1.descriptor doc1.stream_resource dIdx d.external.length rest
      { s with
        sr_cache := dictRemove s.sr_cache doc1.stream_resource,
        sr_nodes := dictInsert s.sr_nodes SR_doc.uid (dIdx, d.external.length),
        descs := listSet s.descs dIdx
          { d with
            external := d.external ++
              [growNode (mkSRNode SR_doc dd mt dsh)
                (doc1.indices_stop - doc1.indices_start)] } }
      { d with
        external := d.external ++
          [growNode (mkSRNode SR_doc dd mt dsh) (doc1.indices_stop - doc1.indices_start)] }
      (growNode (mkSRNode SR_doc dd mt dsh) (doc1.indices_stop - doc1.indices_start))
      (doc1.indices_stop - doc1.indices_start) dsh (dsh.map (fun k => [k]))
      hd hsr1 hc1 ha1 hsh hch hδ
      (fun y hy => hall y (by simp [hy]))
  have hsum : doc1.indices_stop - doc1.indices_start + deltaSum rest =
      deltaSum (doc1 :: rest) := by
    simp [deltaSum]
  refine ⟨s', d', node', ?_, hsr', hc', ha', ?_, ?_, ?_⟩
  · show processTrace s (Document.streamDatum doc1 :: rest.map Document.streamDatum) =
      Except.ok s'
    simp only [processTrace, hcreate]
    exact htrace
  · rw [hshape', hsum]
  · rw [hchunks', hsum]
  · rw [← hsum]
    exact Int.toNat_of_nonneg hlead'

/-- C5, witness: the spec's own example, `stream_datum [0,5)` then
`stream_datum [5,8)` after announcement: extent 8 and 8 leading chunks of
size 1. -/
theorem c5_extent_and_chunks_witness :
    alookup exStateAnn.descriptor_nodes "d1" = some 0 ∧
    nth exStateAnn.descs 0 = some exDCAnn ∧
    alookup exStateAnn.sr_nodes "sr1" = none ∧
    alookup exStateAnn.sr_cache "sr1" = some exSR ∧
    deltaSum (exDatum 0 5 :: [exDatum 5 8]) = 8 ∧
    (∃ s' d' node', processTrace exStateAnn
        ((exDatum 0 5 :: [exDatum 5 8]).map Document.streamDatum) = Except.ok s' ∧
      alookup s'.sr_nodes (exDatum 0 5).stream_resource = some (0, exDCAnn.external.length) ∧
      nth s'.descs 0 = some d' ∧
      nth d'.external exDCAnn.external.length = some node' ∧
      node'.array_structure.shape = deltaSum (exDatum 0 5 :: [exDatum 5 8]) :: [2] ∧
      node'.array_structure.chunks =
        List.replicate (deltaSum (exDatum 0 5 :: [exDatum 5 8])).toNat 1 ::
          ([2] : List Int).map (fun k => [k]) ∧
      ((deltaSum (exDatum 0 5 :: [exDatum 5 8])).toNat : Int) =
        deltaSum (exDatum 0 5 :: [exDatum 5 8])) :=
  ⟨by decide, by decide, by decide, by decide, by decide,
   c5_extent_and_chunks exStateAnn (exDatum 0 5) [exDatum 5 8] 0 exDCAnn exSR
     ⟨"array", [2], some "<i4"⟩ "application/x-hdf5" [2]
     (by decide) (by decide) (by decide) (by decide) (by decide) (by decide) (by decide)
     (by decide) (by decide)⟩

/-! ### C6 — lazy, at-most-once node creation -/

/-- C6: (1) `stream_resource` only caches its document and touches no
node; (2) a stream_datum whose resource is already materialized reuses
the registered node — the total array-node count and the registry are
unchanged, only the registered node is rewritten; (3) the first
stream_datum for an announced resource creates exactly one node and
registers it under that resource's uid; (4) concretely, announcement
followed by zero stream_datum documents leaves zero array nodes. -/
theorem c6_lazy_singleton_node :
    (∀ (s : WState) (doc : StreamResourceDoc),
      processDoc s (Document.streamResource doc) = Except.ok (stream_resource s doc) ∧
      (stream_resource s doc).sr_cache = dictInsert s.sr_cache doc.uid doc ∧
      (stream_resource s doc).descs = s.descs ∧
      totalArrayNodes (stream_resource s doc) = totalArrayNodes s) ∧
    (∀ (s : WState) (doc : StreamDatumDoc) (j dIdx aIdx : Nat) (dc d : DescContainer)
      (node : ArrayNode),
      alookup s.descriptor_nodes doc.descriptor = some j →
      nth s.descs j = some dc →
      alookup s.sr_nodes doc.stream_resource = some (dIdx, aIdx) →
      nth s.descs dIdx = some d →
      nth d.external aIdx = some node →
      ∃ s', processDoc s (Document.streamDatum doc) = Except.ok s' ∧
        totalArrayNodes s' = totalArrayNodes s ∧
        s'.sr_nodes = s.sr_nodes ∧
        nth s'.descs dIdx = some
          { d with
            external := listSet d.external aIdx
              (growNode node (doc.indices_stop - doc.indices_start)) }) ∧
    (∀ (s : WState) (doc : StreamDatumDoc) (dIdx : Nat) (d : DescContainer)
      (SR_doc : StreamResourceDoc) (dd : DataKeyDesc) (mt : String) (dsh : List Int),
      alookup s.descriptor_nodes doc.descriptor = some dIdx →
      nth s.descs dIdx = some d →
      alookup s.sr_nodes doc.stream_resource = none →
      alookup s.sr_cache doc.stream_resource = some SR_doc →
      alookup d.metadata.data_keys SR_doc.data_key = some dd →
      (if dd.dtype = "array" then some dd.shape
       else if dd.dtype = "number" then some ([] : List Int) else none) = some dsh →
      alookup MIMETYPE_LOOKUP SR_doc.spec = some mt →
      ∃ s', processDoc s (Document.streamDatum doc) = Except.ok s' ∧
        totalArrayNodes s' = totalArrayNodes s + 1 ∧
        alookup s'.sr_nodes SR_doc.uid = some (dIdx, d.external.length)) ∧
    ((processTrace WState.init
      [Document.start exStart, Document.descriptor exDescArr,
       Document.streamResource exSR]).map totalArrayNodes = Except.ok 0) := by
  refine ⟨?_, ?_, ?_, by decide⟩
  · intro s doc
    exact ⟨rfl, rfl, rfl, rfl⟩
  · intro s doc j dIdx aIdx dc d node hd hj hsr hdi ha
    refine ⟨{ s with
              descs := listSet s.descs dIdx
                { d with
                  external := listSet d.external aIdx
                    (growNode node (doc.indices_stop - doc.indices_start)) } },
      ?_, ?_, rfl, ?_⟩
    · simp [processDoc, stream_datum, hd, hj, hsr, updateSR, hdi, ha]
    · have hkey := sum_map_listModify (fun c => c.external.length)
        (fun _ => ({ d with
                     external := listSet d.external aIdx
                       (growNode node (doc.indices_stop - doc.indices_start)) } : DescContainer))
        s.descs dIdx d hdi
      have hlen : (({ d with
          external := listSet d.external aIdx
            (growNode node (doc.indices_stop - doc.indices_start)) } : DescContainer)).external.length =
          d.external.length := by
        show (listSet d.external aIdx _).length = _
        exact length_listModify _ _ _
      simp only [hlen] at hkey
      show ((listModify s.descs dIdx
          (fun _ => ({ d with
                       external := listSet d.external aIdx
                         (growNode node (doc.indices_stop - doc.indices_start)) } : DescContainer))).map
          (fun c => c.external.length)).sum =
        (s.descs.map (fun c => c.external.length)).sum
      omega
    · show nth (listSet s.descs dIdx _) dIdx = _
      rw [nth_listSet_self, hdi]
      rfl
  · intro s doc dIdx d SR_doc dd mt dsh hd hc hmat hcache hdk hif hmt
    refine ⟨_, stream_datum_create s doc dIdx d SR_doc dd mt dsh hd hc hmat hcache hdk hif hmt,
      ?_, ?_⟩
    · have hkey := sum_map_listModify (fun c => c.external.length)
        (fun _ => ({ d with
                     external := d.external ++
                       [growNode (mkSRNode SR_doc dd mt dsh)
                         (doc.indices_stop - doc.indices_start)] } : DescContainer))
        s.descs dIdx d hc
      have hlen : (({ d with
          external := d.external ++
            [growNode (mkSRNode SR_doc dd mt dsh)
              (doc.indices_stop - doc.indices_start)] } : DescContainer)).external.length =
          d.external.length + 1 := by
        show (d.external ++ _).length = _
        simp
      simp only [hlen] at hkey
      show ((listModify s.descs dIdx
          (fun _ => ({ d with
                       external := d.external ++
                         [growNode (mkSRNode SR_doc dd mt dsh)
                           (doc.indices_stop - doc.indices_start)] } : DescContainer))).map
          (fun c => c.external.length)).sum =
        (s.descs.map (fun c => c.external.length)).sum + 1
      omega
    · show alookup (dictInsert s.sr_nodes SR_doc.uid (dIdx, d.external.length)) SR_doc.uid = _
      exact alookup_dictInsert_self _ _ _

/-- C6, witness: a datum on the already materialized node of `exState1`
reuses that node and creates none. -/
theorem c6_lazy_singleton_node_witness :
    alookup exState1.descriptor_nodes "d1" = some 0 ∧
    alookup exState1.sr_nodes "sr1" = some (0, 0) ∧
    nth exState1.descs 0 = some exDC1 ∧
    nth exDC1.external 0 = some exAN1 ∧
    (∃ s', processDoc exState1 (Document.streamDatum (exDatum 5 8)) = Except.ok s' ∧
      totalArrayNodes s' = totalArrayNodes exState1 ∧
      s'.sr_nodes = exState1.sr_nodes ∧
      nth s'.descs 0 = some
        { exDC1 with
          external := listSet exDC1.external 0
            (growNode exAN1 ((exDatum 5 8).indices_stop - (exDatum 5 8).indices_start)) }) :=
  ⟨by decide, by decide, by decide, by decide,
   c6_lazy_singleton_node.2.1 exState1 (exDatum 5 8) 0 0 0 exDC1 exDC1 exAN1
     (by decide) (by decide) (by decide) (by decide) (by decide)⟩

/-! ### C8 — derived asset URI -/

/-- C8, counterexample: the code builds the URI from
`root.strip("/")` and `resource_path.strip("/")`, not by normalizing the
concatenation.  The two inputs `(root, resource_path) = ("a//b", "c")`
and `("a", "/b/c")` concatenate to the same string, yet the code derives
different URIs — so no single normalization function over the
concatenation can reproduce the code, and the spec's formula (with
POSIX-style normalization) disagrees with the code at `("a//b", "c")`. -/
theorem c8_asset_uri_counterexample :
    ("/" ++ "a//b" ++ "/" ++ "c" : String) = "/" ++ "a" ++ "/" ++ "/b/c" ∧
    (processTrace WState.init
      [Document.start exStart, Document.descriptor exDescArr,
       Document.streamResource ⟨"sr1", "hdf5", "a//b", "c", "p", "det"⟩,
       Document.streamDatum (exDatum 0 1)]).map
      (fun s => (nth s.descs 0).map (fun d =>
        (nth d.external 0).map (fun n => n.assets.map (fun a => a.data_uri)))) =
      Except.ok (some (some ["file://localhost/a//b/c"])) ∧
    (processTrace WState.init
      [Document.start exStart, Document.descriptor exDescArr,
       Document.streamResource ⟨"sr1", "hdf5", "a", "/b/c", "p", "det"⟩,
       Document.streamDatum (exDatum 0 1)]).map
      (fun s => (nth s.descs 0).map (fun d =>
        (nth d.external 0).map (fun n => n.assets.map (fun a => a.data_uri)))) =
      Except.ok (some (some ["file://localhost/a/b/c"])) ∧
    ("file://localhost/a//b/c" : String) ≠ "file://localhost/a/b/c" ∧
    specAssetUri "a//b" "c" ≠ "file://localhost/a//b/c" :=
  ⟨by decide, by decide, by decide, by decide, by decide⟩

/-- C8 (amended): the materialized node's single external asset reference
is not a directory and its URI equals
`"file://localhost" + "/" + root.strip("/") + "/" + resource_path.strip("/")`
(which agrees with the spec's normalized form only when stripping already
normalizes the concatenation). -/
theorem c8_asset_uri (s : WState) (doc : StreamDatumDoc) (dIdx : Nat)
    (d : DescContainer) (SR_doc : StreamResourceDoc) (dd : DataKeyDesc) (mt : String)
    (dsh : List Int)
    (hd : alookup s.descriptor_nodes doc.descriptor = some dIdx)
    (hc : nth s.descs dIdx = some d)
    (hmat : alookup s.sr_nodes doc.stream_resource = none)
    (hcache : alookup s.sr_cache doc.stream_resource = some SR_doc)
    (hdk : alookup d.metadata.data_keys SR_doc.data_key = some dd)
    (hif : (if dd.dtype = "array" then some dd.shape
            else if dd.dtype = "number" then some ([] : List Int) else none) = some dsh)
    (hmt : alookup MIMETYPE_LOOKUP SR_doc.spec = some mt) :
    ∃ s' d' node', processDoc s (Document.streamDatum doc) = Except.ok s' ∧
      nth s'.descs dIdx = some d' ∧
      nth d'.external d.external.length = some node' ∧
      node'.assets = [{ data_uri := codeAssetUri SR_doc.root SR_doc.resource_path,
                        is_directory := false, parameter := "data_uri" }] := by
  refine ⟨_,
    { d with
      external := d.external ++
        [growNode (mkSRNode SR_doc dd mt dsh) (doc.indices_stop - doc.indices_start)] },
    growNode (mkSRNode SR_doc dd mt dsh) (doc.indices_stop - doc.indices_start),
    stream_datum_create s doc dIdx d SR_doc dd mt dsh hd hc hmat hcache hdk hif hmt,
    ?_, ?_, ?_⟩
  · show nth (listSet s.descs dIdx _) dIdx = _
    rw [nth_listSet_self, hc]
    rfl
  · show nth (d.external ++ [growNode (mkSRNode SR_doc dd mt dsh)
      (doc.indices_stop - doc.indices_start)]) d.external.length = _
    exact nth_append_length _ _
  · rfl

/-- C8, witness: the concrete resource (`root = "/data"`,
`resource_path = "f.h5"`) materializes with the stripped-and-joined URI. -/
theorem c8_asset_uri_witness :
    alookup exStateAnn.descriptor_nodes "d1" = some 0 ∧
    nth exStateAnn.descs 0 = some exDCAnn ∧
    alookup exStateAnn.sr_nodes "sr1" = none ∧
    alookup exStateAnn.sr_cache "sr1" = some exSR ∧
    codeAssetUri exSR.root exSR.resource_path = "file://localhost/data/f.h5" ∧
    (∃ s' d' node', processDoc exStateAnn (Document.streamDatum (exDatum 0 5)) = Except.ok s' ∧
      nth s'.descs 0 = some d' ∧
      nth d'.external exDCAnn.external.length = some node' ∧
      node'.assets = [{ data_uri := codeAssetUri exSR.root exSR.resource_path,
                        is_directory := false, parameter := "data_uri" }]) :=
  ⟨by decide, by decide, by decide, by decide, by decide,
   c8_asset_uri exStateAnn (exDatum 0 5) 0 exDCAnn exSR ⟨"array", [2], some "<i4"⟩
     "application/x-hdf5" [2]
     (by decide) (by decide) (by decide) (by decide) (by decide) (by decide) (by decide)⟩

/-! ### C9 — initial array structure -/

/-- C9: when the array node is first created, its per-element shape is
the descriptor's declared shape for `dtype = "array"` and empty for
`dtype = "number"` (scalar); its machine element type is the descriptor's
`dtype_str`, defaulting to `"<f8"` when absent; and the node is created
with leading-dimension extent 0 (before the same handler applies this
datum's growth). -/
theorem c9_initial_structure (s : WState) (doc : StreamDatumDoc) (dIdx : Nat)
    (d : DescContainer) (SR_doc : StreamResourceDoc) (dd : DataKeyDesc) (mt : String)
    (hd : alookup s.descriptor_nodes doc.descriptor = some dIdx)
    (hc : nth s.descs dIdx = some d)
    (hmat : alookup s.sr_nodes doc.stream_resource = none)
    (hcache : alookup s.sr_cache doc.stream_resource = some SR_doc)
    (hdk : alookup d.metadata.data_keys SR_doc.data_key = some dd)
    (hdt : dd.dtype = "array" ∨ dd.dtype = "number")
    (hmt : alookup MIMETYPE_LOOKUP SR_doc.spec = some mt) :
    ∃ s' d', processDoc s (Document.streamDatum doc) = Except.ok s' ∧
      nth s'.descs dIdx = some d' ∧
      nth d'.external d.external.length =
        some (growNode (mkSRNode SR_doc dd mt (shapeFor dd))
          (doc.indices_stop - doc.indices_start)) ∧
      (mkSRNode SR_doc dd mt (shapeFor dd)).array_structure =
        initialArrayStructure dd (shapeFor dd) ∧
      (initialArrayStructure dd (shapeFor dd)).shape = 0 :: shapeFor dd ∧
      (dd.dtype = "array" → shapeFor dd = dd.shape) ∧
      (dd.dtype = "number" → shapeFor dd = []) ∧
      (initialArrayStructure dd (shapeFor dd)).data_type = dd.dtype_str.getD "<f8" ∧
      (dd.dtype_str = none → (initialArrayStructure dd (shapeFor dd)).data_type = "<f8") := by
  have hif : (if dd.dtype = "array" then some dd.shape
      else if dd.dtype = "number" then some ([] : List Int) else none) = some (shapeFor dd) := by
    rcases hdt with h | h
    · simp [h, shapeFor]
    · simp [h, shapeFor]
  refine ⟨_,
    { d with
      external := d.external ++
        [growNode (mkSRNode SR_doc dd mt (shapeFor dd))
          (doc.indices_stop - doc.indices_start)] },
    stream_datum_create s doc dIdx d SR_doc dd mt (shapeFor dd) hd hc hmat hcache hdk hif hmt,
    ?_, ?_, rfl, rfl, ?_, ?_, rfl, ?_⟩
  · show nth (listSet s.descs dIdx _) dIdx = _
    rw [nth_listSet_self, hc]
    rfl
  · show nth (d.external ++ [growNode (mkSRNode SR_doc dd mt (shapeFor dd))
      (doc.indices_stop - doc.indices_start)]) d.external.length = _
    exact nth_append_length _ _
  · intro h
    simp [shapeFor, h]
  · intro h
    simp [shapeFor, h]
  · intro h
    simp [initialArrayStructure, h]

/-- C9, witness: a scalar data key (`dtype = "number"`) with no declared
machine dtype gives per-element shape `[]` and machine type `"<f8"`. -/
theorem c9_initial_structure_witness :
    alookup exStateAnnNum.descriptor_nodes "d1" = some 0 ∧
    nth exStateAnnNum.descs 0 = some exDCAnnNum ∧
    alookup exStateAnnNum.sr_nodes "sr1" = none ∧
    alookup exStateAnnNum.sr_cache "sr1" = some exSR ∧
    (∃ s' d', processDoc exStateAnnNum (Document.streamDatum (exDatum 0 5)) = Except.ok s' ∧
      nth s'.descs 0 = some d' ∧
      nth d'.external exDCAnnNum.external.length =
        some (growNode (mkSRNode exSR ⟨"number", [], none⟩ "application/x-hdf5"
          (shapeFor ⟨"number", [], none⟩))
          ((exDatum 0 5).indices_stop - (exDatum 0 5).indices_start)) ∧
      (mkSRNode exSR ⟨"number", [], none⟩ "application/x-hdf5"
        (shapeFor ⟨"number", [], none⟩)).array_structure =
        initialArrayStructure ⟨"number", [], none⟩ (shapeFor ⟨"number", [], none⟩) ∧
      (initialArrayStructure ⟨"number", [], none⟩ (shapeFor ⟨"number", [], none⟩)).shape =
        0 :: shapeFor ⟨"number", [], none⟩ ∧
      ((⟨"number", [], none⟩ : DataKeyDesc).dtype = "array" →
        shapeFor ⟨"number", [], none⟩ = (⟨"number", [], none⟩ : DataKeyDesc).shape) ∧
      ((⟨"number", [], none⟩ : DataKeyDesc).dtype = "number" →
        shapeFor ⟨"number", [], none⟩ = []) ∧
      (initialArrayStructure ⟨"number", [], none⟩ (shapeFor ⟨"number", [], none⟩)).data_type =
        (⟨"number", [], none⟩ : DataKeyDesc).dtype_str.getD "<f8" ∧
      ((⟨"number", [], none⟩ : DataKeyDesc).dtype_str = none →
        (initialArrayStructure ⟨"number", [], none⟩
          (shapeFor ⟨"number", [], none⟩)).data_type = "<f8")) :=
  ⟨by decide, by decide, by decide, by decide,
   c9_initial_structure exStateAnnNum (exDatum 0 5) 0 exDCAnnNum exSR
     ⟨"number", [], none⟩ "application/x-hdf5"
     (by decide) (by decide) (by decide) (by decide) (by decide) (by decide) (by decide)⟩

end TiledWriter
